import Mathlib

/-!
Verification of the status-report renderer and HTTP/constructor logic of
`miner_monitor.py` (class `MinerAPI`).

Embedding conventions:
* A JSON status document is modelled by typed records whose fields are all
  `Option`-valued: `some v` means the key is present with value `v`, `none`
  means the key is absent.  Python `d.get(k, default)` becomes
  `Option.getD`; `d.get(k)` (no default) becomes the bare `Option`, whose
  rendered form for an absent key is the Python literal string `"None"`.
* Numeric JSON values are modelled as integers (`Int`).  Python's fixed
  format `f"{n:.2f}"` on an integer `n` is exactly `toString n ++ ".00"`;
  IEEE floating-point rendering is outside the scope of this embedding.
* `print` emits one element of the output list per call; the embedded
  leading `"\n"` characters of the Python f-strings are kept inside the
  corresponding list element, exactly as the source writes them.
* `datetime.now().strftime('%Y-%m-%d %H:%M:%S')` is the only ambient input
  of the renderer; it is passed explicitly as the `ts : String` argument.
* Python `str.upper` is modelled by `pyUpper` (ASCII uppercasing).
-/

/-- Status sub-object of the document (`miner_status`, line 64 of the source). -/
structure MinerStatus where
  miner_state : Option String
deriving DecidableEq

/-- Temperature range sub-object (`pcb_temp` / `chip_temp`, lines 79-83). -/
structure TempRange where
  min : Option Int
  max : Option Int
deriving DecidableEq

/-- One entry of the `pools` sequence (lines 98-102). -/
structure Pool where
  id : Option Int
  url : Option String
  status : Option String
  diff : Option String
  accepted : Option Int
  rejected : Option Int
  stale : Option Int
deriving DecidableEq

/-- One entry of the `cooling.fans` sequence (lines 110-111). -/
structure Fan where
  id : Option Int
  rpm : Option Int
  status : Option String
deriving DecidableEq

/-- The `cooling.settings.mode` sub-object (line 109). -/
structure CoolingMode where
  name : Option String
deriving DecidableEq

/-- The `cooling.settings` sub-object (line 109). -/
structure CoolingSettings where
  mode : Option CoolingMode
deriving DecidableEq

/-- The `cooling` sub-object (lines 105-111). -/
structure Cooling where
  fan_duty : Option Int
  settings : Option CoolingSettings
  fans : Option (List Fan)
deriving DecidableEq

/-- The `chip_statuses` sub-object of a chain (lines 121-122). -/
structure ChipStatuses where
  grey : Option Int
  orange : Option Int
  red : Option Int
deriving DecidableEq

/-- One entry of the `chains` sequence (lines 116-122). -/
structure Chain where
  id : Option Int
  frequency : Option Int
  voltage : Option Int
  hashrate_rt : Option Int
  hashrate_percentage : Option Int
  power_consumption : Option Int
  chip_statuses : Option ChipStatuses
deriving DecidableEq

/-- The `miner` sub-object of the document (lines 56-122). -/
structure Miner where
  miner_type : Option String
  miner_status : Option MinerStatus
  average_hashrate : Option Int
  instant_hashrate : Option Int
  hr_nominal : Option Int
  hr_realtime : Option Int
  power_consumption : Option Int
  power_efficiency : Option Int
  hw_errors : Option Int
  hw_errors_percent : Option Int
  hr_error : Option Int
  devfee_percent : Option Int
  devfee : Option Int
  pcb_temp : Option TempRange
  chip_temp : Option TempRange
  pools : Option (List Pool)
  cooling : Option Cooling
  chains : Option (List Chain)
deriving DecidableEq

/-- Root of the summary document.  `miner = none` covers both an empty
document (`not data`, which for a dict means it has no keys at all, hence
in particular no `'miner'` key) and a non-empty document lacking the
`'miner'` key: the renderer reads no other key of the root, so the two
cases are indistinguishable to it (line 52). -/
structure StatusDocument where
  miner : Option Miner
deriving DecidableEq

/-- Miner record with every key absent. -/
def emptyMiner : Miner :=
  { miner_type := none, miner_status := none, average_hashrate := none
    instant_hashrate := none, hr_nominal := none, hr_realtime := none
    power_consumption := none, power_efficiency := none, hw_errors := none
    hw_errors_percent := none, hr_error := none, devfee_percent := none
    devfee := none, pcb_temp := none, chip_temp := none, pools := none
    cooling := none, chains := none }

/-- Pool entry with every key absent. -/
def emptyPool : Pool :=
  { id := none, url := none, status := none, diff := none
    accepted := none, rejected := none, stale := none }

/-- Fan entry with every key absent. -/
def emptyFan : Fan :=
  { id := none, rpm := none, status := none }

/-- Chain entry with every key absent. -/
def emptyChain : Chain :=
  { id := none, frequency := none, voltage := none, hashrate_rt := none
    hashrate_percentage := none, power_consumption := none, chip_statuses := none }

/-- Cooling record with every key absent, the `{}` default of
`miner.get('cooling', {})` at line 105. -/
def emptyCooling : Cooling := { fan_duty := none, settings := none, fans := none }

/-- Python `f"{n:.pf}"` for an integer value `n`: the decimal digits, a
point, and `p` zeros (`f"{0:.2f}" = "0.00"`, `f"{-3:.2f}" = "-3.00"`). -/
def fmtFixed (n : Int) (p : Nat) : String :=
  toString n ++ "." ++ String.mk (List.replicate p '0')

/-- Python rendering of an optional integer read with `d.get(k)` (no
default): `str(None) = "None"` when the key is absent. -/
def showOptInt : Option Int → String
  | some n => toString n
  | none => "None"

/-- Python `str.upper` (ASCII uppercasing, applied character by character);
written as a structural map over the character list so that it evaluates
by definitional reduction. -/
def pyUpper (s : String) : String := String.mk (s.data.map Char.toUpper)

/-- The `"=" * 60` banner of lines 58, 60 and 124. -/
def banner : String := String.mk (List.replicate 60 '=')

/-- Title line of the report (line 59), with the timestamp passed in. -/
def titleLine (ts : String) : String := "MINER STATISTICS - " ++ ts

/-- Line 63: miner type with default `"N/A"`. -/
def minerTypeLine (m : Miner) : String :=
  "\n🔧 Miner Type: " ++ m.miner_type.getD "N/A"

/-- Line 64: `miner.get('miner_status', {}).get('miner_state', 'N/A').upper()`. -/
def statusLine (m : Miner) : String :=
  "📊 Status: " ++ pyUpper ((m.miner_status.getD ⟨none⟩).miner_state.getD "N/A")

/-- Line 68: average hashrate, default `0`, two decimals. -/
def avgHashrateLine (m : Miner) : String :=
  "  • Average:  " ++ fmtFixed (m.average_hashrate.getD 0) 2 ++ " TH/s"

/-- Line 69: instant hashrate, default `0`, two decimals. -/
def instantHashrateLine (m : Miner) : String :=
  "  • Instant:  " ++ fmtFixed (m.instant_hashrate.getD 0) 2 ++ " TH/s"

/-- Line 70: nominal hashrate, default `0`, two decimals. -/
def nominalHashrateLine (m : Miner) : String :=
  "  • Nominal:  " ++ fmtFixed (m.hr_nominal.getD 0) 2 ++ " TH/s"

/-- Line 71: realtime hashrate, default `0`, two decimals, unit GH/s. -/
def realtimeHashrateLine (m : Miner) : String :=
  "  • Realtime: " ++ fmtFixed (m.hr_realtime.getD 0) 2 ++ " GH/s"

/-- Line 75: power consumption, raw, default `0`. -/
def consumptionLine (m : Miner) : String :=
  "  • Consumption: " ++ toString (m.power_consumption.getD 0) ++ " W"

/-- Line 76: power efficiency, default `0`, two decimals. -/
def efficiencyLine (m : Miner) : String :=
  "  • Efficiency:  " ++ fmtFixed (m.power_efficiency.getD 0) 2 ++ " W/TH"

/-- Line 82: PCB temperature range; `pcb_temp` defaults to `{}` (line 79)
and its `min`/`max` keys each default to `0`. -/
def pcbTempLine (m : Miner) : String :=
  "  • PCB:  " ++ toString ((m.pcb_temp.getD ⟨none, none⟩).min.getD 0) ++ "°C - "
    ++ toString ((m.pcb_temp.getD ⟨none, none⟩).max.getD 0) ++ "°C"

/-- Line 83: chip temperature range, same defaulting as the PCB line. -/
def chipTempLine (m : Miner) : String :=
  "  • Chip: " ++ toString ((m.chip_temp.getD ⟨none, none⟩).min.getD 0) ++ "°C - "
    ++ toString ((m.chip_temp.getD ⟨none, none⟩).max.getD 0) ++ "°C"

/-- Line 87: hardware error count and percent, each default `0`. -/
def hwErrorsLine (m : Miner) : String :=
  "  • Hardware Errors: " ++ toString (m.hw_errors.getD 0) ++ " ("
    ++ toString (m.hw_errors_percent.getD 0) ++ "%)"

/-- Line 88: hashrate error, raw, default `0`. -/
def hrErrorLine (m : Miner) : String :=
  "  • Hashrate Error:  " ++ toString (m.hr_error.getD 0)

/-- Line 92: dev fee percentage, default `0`, three decimals. -/
def devfeePercentLine (m : Miner) : String :=
  "  • Percentage: " ++ fmtFixed (m.devfee_percent.getD 0) 3 ++ "%"

/-- Line 93: dev fee value, default `0`, two decimals. -/
def devfeeValueLine (m : Miner) : String :=
  "  • Value:      " ++ fmtFixed (m.devfee.getD 0) 2

/-- The local `pools = miner.get('pools', [])` of line 96. -/
def poolsOf (m : Miner) : List Pool := m.pools.getD []

/-- The local `cooling = miner.get('cooling', {})` of line 105. -/
def coolingOf (m : Miner) : Cooling := m.cooling.getD emptyCooling

/-- The local `fans = cooling.get('fans', [])` of line 106. -/
def fansOf (m : Miner) : List Fan := (coolingOf m).fans.getD []

/-- The local `chains = miner.get('chains', [])` of line 114. -/
def chainsOf (m : Miner) : List Chain := m.chains.getD []

/-- Line 97: pools section header carrying `len(pools)`. -/
def poolsHeaderLine (m : Miner) : String :=
  "\n🏊 POOLS (" ++ toString (poolsOf m).length ++ "):"

/-- Line 99: filled indicator exactly when `status == 'active'`; the bare
`pool.get('status')` yields `None` on absence, which is not `'active'`. -/
def poolIcon (p : Pool) : String :=
  if p.status = some "active" then "✓" else "○"

/-- Lines 100-102: the three printed lines of one pool entry. -/
def poolLines (p : Pool) : List String :=
  [ "  " ++ poolIcon p ++ " [" ++ showOptInt p.id ++ "] " ++ p.url.getD "N/A"
  , "     Status: " ++ p.status.getD "N/A" ++ " | Diff: " ++ p.diff.getD "N/A"
  , "     Accepted: " ++ toString (p.accepted.getD 0) ++ " | Rejected: "
      ++ toString (p.rejected.getD 0) ++ " | Stale: " ++ toString (p.stale.getD 0) ]

/-- Line 108: fan duty, read from the (possibly defaulted) cooling object. -/
def fanDutyLine (m : Miner) : String :=
  "  • Fan Duty: " ++ toString ((coolingOf m).fan_duty.getD 0) ++ "%"

/-- Line 109: `cooling.get('settings', {}).get('mode', {}).get('name', 'N/A')`,
each link of the chain defaulting independently. -/
def modeLine (m : Miner) : String :=
  "  • Mode: " ++ ((((coolingOf m).settings.getD ⟨none⟩).mode.getD ⟨none⟩).name.getD "N/A")

/-- Line 111: one fan entry; `fan.get('id')` has no default. -/
def fanLine (f : Fan) : String :=
  "  • Fan " ++ showOptInt f.id ++ ": " ++ toString (f.rpm.getD 0)
    ++ " RPM (" ++ f.status.getD "N/A" ++ ")"

/-- Line 115: chains section header carrying `len(chains)`. -/
def chainsHeaderLine (m : Miner) : String :=
  "\n⛓️  HASH CHAINS (" ++ toString (chainsOf m).length ++ "):"

/-- Lines 117-122: the five printed lines of one chain entry;
`chain.get('id')` has no default, `chip_statuses` defaults to `{}`. -/
def chainLines (c : Chain) : List String :=
  [ "  • Chain " ++ showOptInt c.id ++ ":"
  , "     Frequency: " ++ toString (c.frequency.getD 0) ++ " MHz | Voltage: "
      ++ toString (c.voltage.getD 0) ++ " mV"
  , "     Hashrate: " ++ fmtFixed (c.hashrate_rt.getD 0) 2 ++ " GH/s ("
      ++ fmtFixed (c.hashrate_percentage.getD 0) 2 ++ "%)"
  , "     Power: " ++ toString (c.power_consumption.getD 0) ++ " W"
  , "     Chips: Grey=" ++ toString ((c.chip_statuses.getD ⟨none, none, none⟩).grey.getD 0)
      ++ ", Orange=" ++ toString ((c.chip_statuses.getD ⟨none, none, none⟩).orange.getD 0)
      ++ ", Red=" ++ toString ((c.chip_statuses.getD ⟨none, none, none⟩).red.getD 0) ]

/-- Lines 56-124: the full report for a present `miner` object, one list
element per `print` call, in source order. -/
def minerReport (ts : String) (m : Miner) : List String :=
  [ banner
  , titleLine ts
  , banner
  , minerTypeLine m
  , statusLine m
  , "\n⚡ HASHRATE:"
  , avgHashrateLine m
  , instantHashrateLine m
  , nominalHashrateLine m
  , realtimeHashrateLine m
  , "\n⚡ POWER:"
  , consumptionLine m
  , efficiencyLine m
  , "\n🌡️  TEMPERATURE:"
  , pcbTempLine m
  , chipTempLine m
  , "\n❌ ERRORS:"
  , hwErrorsLine m
  , hrErrorLine m
  , "\n💰 DEV FEE:"
  , devfeePercentLine m
  , devfeeValueLine m
  , poolsHeaderLine m ]
  ++ ((poolsOf m).map poolLines).flatten
  ++ [ "\n🌀 COOLING:"
  , fanDutyLine m
  , modeLine m ]
  ++ (fansOf m).map fanLine
  ++ chainsHeaderLine m :: ((chainsOf m).map chainLines).flatten
  ++ [ "\n" ++ banner ]

/-- Lines 50-124, `MinerAPI.parse_miner_stats`: if the document is empty or
lacks the `'miner'` key (line 52) the single no-data line is produced;
otherwise the full report. -/
def parse_miner_stats (ts : String) (data : StatusDocument) : List String :=
  match data.miner with
  | none => ["No miner data available"]
  | some m => minerReport ts m

/-- C1: a StatusDocument that is empty or whose root lacks the `'miner'`
key renders as exactly the single line `"No miner data available"`. -/
theorem c1_no_miner_data (ts : String) (d : StatusDocument) (h : d.miner = none) :
    parse_miner_stats ts d = ["No miner data available"] := by
  simp [parse_miner_stats, h]

/-- Witness for C1 at the empty document. -/
theorem c1_no_miner_data_witness :
    parse_miner_stats "2024-01-01 00:00:00" ⟨none⟩ = ["No miner data available"] :=
  c1_no_miner_data "2024-01-01 00:00:00" ⟨none⟩ rfl

/-- Opening line of each of the 11 sections of the report, in the fixed
order of the spec (§4.1): header banner, basic info, hashrate, power,
temperature, errors, dev fee, pools, cooling, hash chains, closing banner. -/
def sectionMarkers (m : Miner) : List String :=
  [ banner
  , minerTypeLine m
  , "\n⚡ HASHRATE:"
  , "\n⚡ POWER:"
  , "\n🌡️  TEMPERATURE:"
  , "\n❌ ERRORS:"
  , "\n💰 DEV FEE:"
  , poolsHeaderLine m
  , "\n🌀 COOLING:"
  , chainsHeaderLine m
  , "\n" ++ banner ]

/-- C2: on a document with a `'miner'` key the renderer is deterministic
for a fixed timestamp (it is a pure function of the document and the
timestamp), and its output contains the opening lines of all 11 sections
of the report as a subsequence, in the fixed order. -/
theorem c2_deterministic_sections (m : Miner) (ts₁ ts₂ : String) (h : ts₁ = ts₂) :
    parse_miner_stats ts₁ ⟨some m⟩ = parse_miner_stats ts₂ ⟨some m⟩ ∧
    (sectionMarkers m).length = 11 ∧
    (sectionMarkers m).Sublist (parse_miner_stats ts₁ ⟨some m⟩) := by
  subst h
  refine ⟨rfl, rfl, ?_⟩
  show (sectionMarkers m).Sublist (minerReport ts₁ m)
  unfold sectionMarkers minerReport
  simp only [List.cons_append, List.nil_append, List.append_assoc]
  apply List.Sublist.cons₂
  apply List.Sublist.cons
  apply List.Sublist.cons
  apply List.Sublist.cons₂
  apply List.Sublist.cons
  apply List.Sublist.cons₂
  apply List.Sublist.cons
  apply List.Sublist.cons
  apply List.Sublist.cons
  apply List.Sublist.cons
  apply List.Sublist.cons₂
  apply List.Sublist.cons
  apply List.Sublist.cons
  apply List.Sublist.cons₂
  apply List.Sublist.cons
  apply List.Sublist.cons
  apply List.Sublist.cons₂
  apply List.Sublist.cons
  apply List.Sublist.cons
  apply List.Sublist.cons₂
  apply List.Sublist.cons
  apply List.Sublist.cons
  apply List.Sublist.cons₂
  refine List.Sublist.trans ?_ (List.sublist_append_right _ _)
  apply List.Sublist.cons₂
  apply List.Sublist.cons
  apply List.Sublist.cons
  refine List.Sublist.trans ?_ (List.sublist_append_right _ _)
  apply List.Sublist.cons₂
  refine List.Sublist.trans ?_ (List.sublist_append_right _ _)
  exact List.Sublist.refl _

/-- Witness for C2 at a concrete miner and timestamp. -/
theorem c2_deterministic_sections_witness :
    parse_miner_stats "T" ⟨some emptyMiner⟩ = parse_miner_stats "T" ⟨some emptyMiner⟩ ∧
    (sectionMarkers emptyMiner).length = 11 ∧
    (sectionMarkers emptyMiner).Sublist (parse_miner_stats "T" ⟨some emptyMiner⟩) :=
  c2_deterministic_sections emptyMiner "T" "T" rfl

/-- Document whose single pool entry has every key absent, in particular
no `id` key. -/
def docMissingPoolId : StatusDocument :=
  ⟨some { emptyMiner with pools := some [emptyPool] }⟩

/-- C3 fails on the `id` fields: `pool.get('id')` (line 100) is read with
no default, so a missing pool id renders as the Python literal `None` —
neither as `0` nor as `"N/A"` as the claim states. -/
theorem c3_missing_id_renders_none :
    "  ○ [None] N/A" ∈ parse_miner_stats "T" docMissingPoolId ∧
    "  ○ [0] N/A" ∉ parse_miner_stats "T" docMissingPoolId ∧
    "  ○ [N/A] N/A" ∉ parse_miner_stats "T" docMissingPoolId := by
  decide

/-- C3 amended: every scalar field the renderer accesses tolerates absence
with default `0` (numeric) or `"N/A"` (string), and every missing sequence
is treated as empty — except the `id` fields of pool, fan, and chain
entries, which are read without a default and render as `"None"`. -/
theorem c3_defaults_amended :
    (∀ m : Miner, m.miner_type = none → minerTypeLine m = "\n🔧 Miner Type: N/A") ∧
    (∀ m : Miner, m.miner_status = none → statusLine m = "📊 Status: N/A") ∧
    (∀ m : Miner, m.average_hashrate = none → avgHashrateLine m = "  • Average:  0.00 TH/s") ∧
    (∀ m : Miner, m.instant_hashrate = none → instantHashrateLine m = "  • Instant:  0.00 TH/s") ∧
    (∀ m : Miner, m.hr_nominal = none → nominalHashrateLine m = "  • Nominal:  0.00 TH/s") ∧
    (∀ m : Miner, m.hr_realtime = none → realtimeHashrateLine m = "  • Realtime: 0.00 GH/s") ∧
    (∀ m : Miner, m.power_consumption = none → consumptionLine m = "  • Consumption: 0 W") ∧
    (∀ m : Miner, m.power_efficiency = none → efficiencyLine m = "  • Efficiency:  0.00 W/TH") ∧
    (∀ m : Miner, m.pcb_temp = none → pcbTempLine m = "  • PCB:  0°C - 0°C") ∧
    (∀ m : Miner, m.chip_temp = none → chipTempLine m = "  • Chip: 0°C - 0°C") ∧
    (∀ m : Miner, m.hw_errors = none → m.hw_errors_percent = none →
      hwErrorsLine m = "  • Hardware Errors: 0 (0%)") ∧
    (∀ m : Miner, m.hr_error = none → hrErrorLine m = "  • Hashrate Error:  0") ∧
    (∀ m : Miner, m.devfee_percent = none → devfeePercentLine m = "  • Percentage: 0.000%") ∧
    (∀ m : Miner, m.devfee = none → devfeeValueLine m = "  • Value:      0.00") ∧
    (∀ m : Miner, m.pools = none → poolsOf m = [] ∧ poolsHeaderLine m = "\n🏊 POOLS (0):") ∧
    (∀ m : Miner, m.cooling = none → fansOf m = [] ∧ fanDutyLine m = "  • Fan Duty: 0%" ∧
      modeLine m = "  • Mode: N/A") ∧
    (∀ m : Miner, m.chains = none → chainsOf m = [] ∧
      chainsHeaderLine m = "\n⛓️  HASH CHAINS (0):") ∧
    (∀ p : Pool, p.id = none → p.url = none → p.status = none → p.diff = none →
      p.accepted = none → p.rejected = none → p.stale = none →
      poolLines p = ["  ○ [None] N/A", "     Status: N/A | Diff: N/A",
        "     Accepted: 0 | Rejected: 0 | Stale: 0"]) ∧
    (∀ f : Fan, f.id = none → f.rpm = none → f.status = none →
      fanLine f = "  • Fan None: 0 RPM (N/A)") ∧
    (∀ c : Chain, c.id = none → c.frequency = none → c.voltage = none →
      c.hashrate_rt = none → c.hashrate_percentage = none →
      c.power_consumption = none → c.chip_statuses = none →
      chainLines c = ["  • Chain None:", "     Frequency: 0 MHz | Voltage: 0 mV",
        "     Hashrate: 0.00 GH/s (0.00%)", "     Power: 0 W",
        "     Chips: Grey=0, Orange=0, Red=0"]) := by
  refine ⟨?_, ?_, ?_, ?_, ?_, ?_, ?_, ?_, ?_, ?_, ?_, ?_, ?_, ?_, ?_, ?_, ?_, ?_, ?_, ?_⟩
  · intro m h; simp only [minerTypeLine, h]; all_goals rfl
  · intro m h; simp only [statusLine, h]; all_goals rfl
  · intro m h; simp only [avgHashrateLine, h]; all_goals rfl
  · intro m h; simp only [instantHashrateLine, h]; all_goals rfl
  · intro m h; simp only [nominalHashrateLine, h]; all_goals rfl
  · intro m h; simp only [realtimeHashrateLine, h]; all_goals rfl
  · intro m h; simp only [consumptionLine, h]; all_goals rfl
  · intro m h; simp only [efficiencyLine, h]; all_goals rfl
  · intro m h; simp only [pcbTempLine, h]; all_goals rfl
  · intro m h; simp only [chipTempLine, h]; all_goals rfl
  · intro m h h'; simp only [hwErrorsLine, h, h']; all_goals rfl
  · intro m h; simp only [hrErrorLine, h]; all_goals rfl
  · intro m h; simp only [devfeePercentLine, h]; all_goals rfl
  · intro m h; simp only [devfeeValueLine, h]; all_goals rfl
  · intro m h; simp only [poolsOf, poolsHeaderLine, h]; exact ⟨rfl, rfl⟩
  · intro m h; simp only [fansOf, coolingOf, fanDutyLine, modeLine, h]; exact ⟨rfl, rfl, rfl⟩
  · intro m h; simp only [chainsOf, chainsHeaderLine, h]; exact ⟨rfl, rfl⟩
  · intro p h1 h2 h3 h4 h5 h6 h7
    simp only [poolLines, poolIcon, showOptInt, h1, h2, h3, h4, h5, h6, h7]; all_goals rfl
  · intro f h1 h2 h3
    simp only [fanLine, showOptInt, h1, h2, h3]; all_goals rfl
  · intro c h1 h2 h3 h4 h5 h6 h7
    simp only [chainLines, showOptInt, h1, h2, h3, h4, h5, h6, h7]; all_goals rfl

/-- Witness for C3 (amended) at the all-absent records. -/
theorem c3_defaults_amended_witness :
    minerTypeLine emptyMiner = "\n🔧 Miner Type: N/A" ∧
    statusLine emptyMiner = "📊 Status: N/A" ∧
    avgHashrateLine emptyMiner = "  • Average:  0.00 TH/s" ∧
    instantHashrateLine emptyMiner = "  • Instant:  0.00 TH/s" ∧
    nominalHashrateLine emptyMiner = "  • Nominal:  0.00 TH/s" ∧
    realtimeHashrateLine emptyMiner = "  • Realtime: 0.00 GH/s" ∧
    consumptionLine emptyMiner = "  • Consumption: 0 W" ∧
    efficiencyLine emptyMiner = "  • Efficiency:  0.00 W/TH" ∧
    pcbTempLine emptyMiner = "  • PCB:  0°C - 0°C" ∧
    chipTempLine emptyMiner = "  • Chip: 0°C - 0°C" ∧
    hwErrorsLine emptyMiner = "  • Hardware Errors: 0 (0%)" ∧
    hrErrorLine emptyMiner = "  • Hashrate Error:  0" ∧
    devfeePercentLine emptyMiner = "  • Percentage: 0.000%" ∧
    devfeeValueLine emptyMiner = "  • Value:      0.00" ∧
    (poolsOf emptyMiner = [] ∧ poolsHeaderLine emptyMiner = "\n🏊 POOLS (0):") ∧
    (fansOf emptyMiner = [] ∧ fanDutyLine emptyMiner = "  • Fan Duty: 0%" ∧
      modeLine emptyMiner = "  • Mode: N/A") ∧
    (chainsOf emptyMiner = [] ∧ chainsHeaderLine emptyMiner = "\n⛓️  HASH CHAINS (0):") ∧
    poolLines emptyPool = ["  ○ [None] N/A", "     Status: N/A | Diff: N/A",
      "     Accepted: 0 | Rejected: 0 | Stale: 0"] ∧
    fanLine emptyFan = "  • Fan None: 0 RPM (N/A)" ∧
    chainLines emptyChain = ["  • Chain None:", "     Frequency: 0 MHz | Voltage: 0 mV",
      "     Hashrate: 0.00 GH/s (0.00%)", "     Power: 0 W",
      "     Chips: Grey=0, Orange=0, Red=0"] := by
  obtain ⟨h1, h2, h3, h4, h5, h6, h7, h8, h9, h10, h11, h12, h13, h14, h15, h16, h17,
    h18, h19, h20⟩ := c3_defaults_amended
  exact ⟨h1 emptyMiner rfl, h2 emptyMiner rfl, h3 emptyMiner rfl, h4 emptyMiner rfl,
    h5 emptyMiner rfl, h6 emptyMiner rfl, h7 emptyMiner rfl, h8 emptyMiner rfl,
    h9 emptyMiner rfl, h10 emptyMiner rfl, h11 emptyMiner rfl rfl, h12 emptyMiner rfl,
    h13 emptyMiner rfl, h14 emptyMiner rfl, h15 emptyMiner rfl, h16 emptyMiner rfl,
    h17 emptyMiner rfl, h18 emptyPool rfl rfl rfl rfl rfl rfl rfl,
    h19 emptyFan rfl rfl rfl, h20 emptyChain rfl rfl rfl rfl rfl rfl rfl⟩

/-- Document with two fan entries and nothing else. -/
def docTwoFans : StatusDocument :=
  ⟨some { emptyMiner with
            cooling := some { emptyCooling with fans := some [emptyFan, emptyFan] } }⟩

/-- C4 fails for fans: the cooling section header (line 107) is the bare
`"🌀 COOLING:"` and carries no count at all — it is the same line whether
the document has two fans or none, and no counted variant is printed. -/
theorem c4_cooling_header_has_no_count :
    "\n🌀 COOLING:" ∈ parse_miner_stats "T" docTwoFans ∧
    "\n🌀 COOLING:" ∈ parse_miner_stats "T" ⟨some emptyMiner⟩ ∧
    "\n🌀 COOLING (2):" ∉ parse_miner_stats "T" docTwoFans ∧
    "\n🌀 COOLING (0):" ∉ parse_miner_stats "T" ⟨some emptyMiner⟩ := by
  decide

/-- C4 amended: the pool and chain headers show the length of the
corresponding (defaulted) sequence, and an empty or absent sequence leaves
no entry lines beneath its header: the pools header is then immediately
followed by the cooling header, the chains header by the closing banner,
and an empty fan list leaves the mode line immediately followed by the
chains header.  The cooling header itself carries no count. -/
theorem c4_counts_amended (m : Miner) (ts : String) :
    poolsHeaderLine m ∈ parse_miner_stats ts ⟨some m⟩ ∧
    poolsHeaderLine m = "\n🏊 POOLS (" ++ toString (poolsOf m).length ++ "):" ∧
    chainsHeaderLine m ∈ parse_miner_stats ts ⟨some m⟩ ∧
    chainsHeaderLine m = "\n⛓️  HASH CHAINS (" ++ toString (chainsOf m).length ++ "):" ∧
    "\n🌀 COOLING:" ∈ parse_miner_stats ts ⟨some m⟩ ∧
    (poolsOf m = [] →
      [poolsHeaderLine m, "\n🌀 COOLING:"].IsInfix (parse_miner_stats ts ⟨some m⟩)) ∧
    (chainsOf m = [] →
      [chainsHeaderLine m, "\n" ++ banner].IsInfix (parse_miner_stats ts ⟨some m⟩)) ∧
    (fansOf m = [] →
      [modeLine m, chainsHeaderLine m].IsInfix (parse_miner_stats ts ⟨some m⟩)) := by
  refine ⟨?_, rfl, ?_, rfl, ?_, ?_, ?_, ?_⟩
  · show poolsHeaderLine m ∈ minerReport ts m
    simp [minerReport]
  · show chainsHeaderLine m ∈ minerReport ts m
    simp [minerReport]
  · show "\n🌀 COOLING:" ∈ minerReport ts m
    simp [minerReport]
  · intro hp
    refine ⟨[banner, titleLine ts, banner, minerTypeLine m, statusLine m, "\n⚡ HASHRATE:",
      avgHashrateLine m, instantHashrateLine m, nominalHashrateLine m, realtimeHashrateLine m,
      "\n⚡ POWER:", consumptionLine m, efficiencyLine m, "\n🌡️  TEMPERATURE:",
      pcbTempLine m, chipTempLine m, "\n❌ ERRORS:", hwErrorsLine m, hrErrorLine m,
      "\n💰 DEV FEE:", devfeePercentLine m, devfeeValueLine m],
      fanDutyLine m :: modeLine m :: ((fansOf m).map fanLine
        ++ chainsHeaderLine m :: ((chainsOf m).map chainLines).flatten ++ ["\n" ++ banner]), ?_⟩
    show _ = minerReport ts m
    simp [minerReport, hp]
  · intro hc
    refine ⟨[banner, titleLine ts, banner, minerTypeLine m, statusLine m, "\n⚡ HASHRATE:",
      avgHashrateLine m, instantHashrateLine m, nominalHashrateLine m, realtimeHashrateLine m,
      "\n⚡ POWER:", consumptionLine m, efficiencyLine m, "\n🌡️  TEMPERATURE:",
      pcbTempLine m, chipTempLine m, "\n❌ ERRORS:", hwErrorsLine m, hrErrorLine m,
      "\n💰 DEV FEE:", devfeePercentLine m, devfeeValueLine m, poolsHeaderLine m] ++
      ((poolsOf m).map poolLines).flatten ++
      ["\n🌀 COOLING:", fanDutyLine m, modeLine m] ++ (fansOf m).map fanLine,
      [], ?_⟩
    show _ = minerReport ts m
    simp [minerReport, hc]
  · intro hf
    refine ⟨[banner, titleLine ts, banner, minerTypeLine m, statusLine m, "\n⚡ HASHRATE:",
      avgHashrateLine m, instantHashrateLine m, nominalHashrateLine m, realtimeHashrateLine m,
      "\n⚡ POWER:", consumptionLine m, efficiencyLine m, "\n🌡️  TEMPERATURE:",
      pcbTempLine m, chipTempLine m, "\n❌ ERRORS:", hwErrorsLine m, hrErrorLine m,
      "\n💰 DEV FEE:", devfeePercentLine m, devfeeValueLine m, poolsHeaderLine m] ++
      ((poolsOf m).map poolLines).flatten ++ ["\n🌀 COOLING:", fanDutyLine m],
      ((chainsOf m).map chainLines).flatten ++ ["\n" ++ banner], ?_⟩
    show _ = minerReport ts m
    simp [minerReport, hf]

/-- Witness for C4 (amended) at the empty miner. -/
theorem c4_counts_amended_witness :
    [poolsHeaderLine emptyMiner, "\n🌀 COOLING:"].IsInfix
      (parse_miner_stats "T" ⟨some emptyMiner⟩) ∧
    [chainsHeaderLine emptyMiner, "\n" ++ banner].IsInfix
      (parse_miner_stats "T" ⟨some emptyMiner⟩) ∧
    [modeLine emptyMiner, chainsHeaderLine emptyMiner].IsInfix
      (parse_miner_stats "T" ⟨some emptyMiner⟩) := by
  obtain ⟨-, -, -, -, -, h6, h7, h8⟩ := c4_counts_amended emptyMiner "T"
  exact ⟨h6 rfl, h7 rfl, h8 rfl⟩

/-- Document of the spec's status example: `miner_state = "mining"`. -/
def docMining : StatusDocument :=
  ⟨some { emptyMiner with miner_status := some ⟨some "mining"⟩ }⟩

/-- C5: the status line shows the upper-cased value at
`miner.miner_status.miner_state`, with default `"N/A"` when either link is
absent (upper-casing the default is a no-op), and the example document
renders the status line `"MINING"`. -/
theorem c5_status_uppercased :
    (∀ (m : Miner) (ts : String), statusLine m ∈ parse_miner_stats ts ⟨some m⟩) ∧
    (∀ (m : Miner) (s : String), m.miner_status = some ⟨some s⟩ →
      statusLine m = "📊 Status: " ++ pyUpper s) ∧
    (∀ m : Miner, m.miner_status = none → statusLine m = "📊 Status: N/A") ∧
    (∀ m : Miner, m.miner_status = some ⟨none⟩ → statusLine m = "📊 Status: N/A") ∧
    "📊 Status: MINING" ∈ parse_miner_stats "T" docMining := by
  refine ⟨?_, ?_, ?_, ?_, ?_⟩
  · intro m ts
    show statusLine m ∈ minerReport ts m
    simp [minerReport]
  · intro m s h
    simp only [statusLine, h, Option.getD_some]
  · intro m h; simp only [statusLine, h]; all_goals rfl
  · intro m h; simp only [statusLine, h, Option.getD_some]; all_goals rfl
  · decide

/-- Witness for C5 at concrete documents. -/
theorem c5_status_uppercased_witness :
    statusLine { emptyMiner with miner_status := some ⟨some "mining"⟩ } =
      "📊 Status: " ++ pyUpper "mining" ∧
    statusLine emptyMiner = "📊 Status: N/A" ∧
    statusLine { emptyMiner with miner_status := some ⟨none⟩ } = "📊 Status: N/A" := by
  obtain ⟨-, h2, h3, h4, -⟩ := c5_status_uppercased
  exact ⟨h2 _ "mining" rfl, h3 emptyMiner rfl, h4 _ rfl⟩

/-- C6: with input `{"miner": {}}` the missing numeric scalars render with
the section's stated precision — the average hashrate line reads
`"0.00 TH/s"` and the dev-fee percent line reads `"0.000%"`. -/
theorem c6_precision_defaults (ts : String) :
    "  • Average:  0.00 TH/s" ∈ parse_miner_stats ts ⟨some emptyMiner⟩ ∧
    "  • Percentage: 0.000%" ∈ parse_miner_stats ts ⟨some emptyMiner⟩ := by
  have h1 : avgHashrateLine emptyMiner = "  • Average:  0.00 TH/s" := rfl
  have h2 : devfeePercentLine emptyMiner = "  • Percentage: 0.000%" := rfl
  constructor
  · rw [← h1]
    show avgHashrateLine emptyMiner ∈ minerReport ts emptyMiner
    simp [minerReport]
  · rw [← h2]
    show devfeePercentLine emptyMiner ∈ minerReport ts emptyMiner
    simp [minerReport]

/-- Document of the spec's pool example. -/
def docExamplePool : StatusDocument :=
  ⟨some { emptyMiner with pools := some [{ emptyPool with
      id := some 1, status := some "active",
      url := some "stratum+tcp://pool.example:3333", accepted := some 10 }] }⟩

/-- C7: each pool entry gets the filled indicator exactly when its status
is `"active"` (hollow otherwise, also on absence), entries appear in input
order directly under the counted header, unset fields default as stated,
and the spec's example pool renders as claimed. -/
theorem c7_pool_rendering :
    (∀ p : Pool, poolIcon p = "✓" ↔ p.status = some "active") ∧
    (∀ p : Pool, p.status = none → poolIcon p = "○") ∧
    (∀ (m : Miner) (ts : String),
      (poolsHeaderLine m :: ((poolsOf m).map poolLines).flatten).IsInfix
        (parse_miner_stats ts ⟨some m⟩)) ∧
    (∀ p : Pool, p.url = none → p.diff = none → p.rejected = none → p.stale = none →
      p.id = some 1 → p.status = some "active" → p.accepted = some 10 →
      poolLines p = ["  ✓ [1] N/A", "     Status: active | Diff: N/A",
        "     Accepted: 10 | Rejected: 0 | Stale: 0"]) ∧
    ("\n🏊 POOLS (1):" ∈ parse_miner_stats "T" docExamplePool ∧
      "  ✓ [1] stratum+tcp://pool.example:3333" ∈ parse_miner_stats "T" docExamplePool ∧
      "     Status: active | Diff: N/A" ∈ parse_miner_stats "T" docExamplePool ∧
      "     Accepted: 10 | Rejected: 0 | Stale: 0" ∈ parse_miner_stats "T" docExamplePool) := by
  refine ⟨?_, ?_, ?_, ?_, ?_⟩
  · intro p
    unfold poolIcon
    by_cases h : p.status = some "active"
    · simp [h]
    · simp only [if_neg h]
      exact ⟨fun hi => absurd hi (by decide), fun hs => absurd hs h⟩
  · intro p h
    simp only [poolIcon, h]
    all_goals rfl
  · intro m ts
    refine ⟨[banner, titleLine ts, banner, minerTypeLine m, statusLine m, "\n⚡ HASHRATE:",
      avgHashrateLine m, instantHashrateLine m, nominalHashrateLine m, realtimeHashrateLine m,
      "\n⚡ POWER:", consumptionLine m, efficiencyLine m, "\n🌡️  TEMPERATURE:",
      pcbTempLine m, chipTempLine m, "\n❌ ERRORS:", hwErrorsLine m, hrErrorLine m,
      "\n💰 DEV FEE:", devfeePercentLine m, devfeeValueLine m],
      "\n🌀 COOLING:" :: fanDutyLine m :: modeLine m :: ((fansOf m).map fanLine
        ++ chainsHeaderLine m :: ((chainsOf m).map chainLines).flatten ++ ["\n" ++ banner]),
      ?_⟩
    show _ = minerReport ts m
    simp [minerReport]
  · intro p h1 h2 h3 h4 h5 h6 h7
    simp only [poolLines, poolIcon, showOptInt, h1, h2, h3, h4, h5, h6, h7, Option.getD_some]
    all_goals rfl
  · refine ⟨?_, ?_, ?_, ?_⟩ <;> decide

/-- Witness for C7 at concrete pools. -/
theorem c7_pool_rendering_witness :
    poolIcon emptyPool = "○" ∧
    poolLines { emptyPool with id := some 1, status := some "active", accepted := some 10 } =
      ["  ✓ [1] N/A", "     Status: active | Diff: N/A",
        "     Accepted: 10 | Rejected: 0 | Stale: 0"] ∧
    (poolsHeaderLine emptyMiner :: ((poolsOf emptyMiner).map poolLines).flatten).IsInfix
      (parse_miner_stats "T" ⟨some emptyMiner⟩) := by
  obtain ⟨-, h2, h3, h4, -⟩ := c7_pool_rendering
  exact ⟨h2 emptyPool rfl, h4 _ rfl rfl rfl rfl rfl rfl rfl, h3 emptyMiner "T"⟩

/-- C8: the cooling mode is the optional chain
`cooling.settings.mode.name`, each link defaulting independently: whichever
link is missing, the rendered mode is the leaf default `"N/A"`; when the
full chain is present the leaf value is rendered. -/
theorem c8_mode_chain_defaults :
    (∀ (m : Miner) (ts : String), modeLine m ∈ parse_miner_stats ts ⟨some m⟩) ∧
    (∀ m : Miner, m.cooling = none → modeLine m = "  • Mode: N/A") ∧
    (∀ (m : Miner) (co : Cooling), m.cooling = some co → co.settings = none →
      modeLine m = "  • Mode: N/A") ∧
    (∀ (m : Miner) (co : Cooling) (se : CoolingSettings), m.cooling = some co →
      co.settings = some se → se.mode = none → modeLine m = "  • Mode: N/A") ∧
    (∀ (m : Miner) (co : Cooling) (se : CoolingSettings) (mo : CoolingMode),
      m.cooling = some co → co.settings = some se → se.mode = some mo →
      mo.name = none → modeLine m = "  • Mode: N/A") ∧
    (∀ (m : Miner) (co : Cooling) (se : CoolingSettings) (mo : CoolingMode) (s : String),
      m.cooling = some co → co.settings = some se → se.mode = some mo →
      mo.name = some s → modeLine m = "  • Mode: " ++ s) := by
  refine ⟨?_, ?_, ?_, ?_, ?_, ?_⟩
  · intro m ts
    show modeLine m ∈ minerReport ts m
    simp [minerReport]
  · intro m h
    simp only [modeLine, coolingOf, h]
    all_goals rfl
  · intro m co h1 h2
    simp only [modeLine, coolingOf, h1, Option.getD_some, h2]
    all_goals rfl
  · intro m co se h1 h2 h3
    simp only [modeLine, coolingOf, h1, Option.getD_some, h2, h3]
    all_goals rfl
  · intro m co se mo h1 h2 h3 h4
    simp only [modeLine, coolingOf, h1, Option.getD_some, h2, h3, h4]
    all_goals rfl
  · intro m co se mo s h1 h2 h3 h4
    simp only [modeLine, coolingOf, h1, Option.getD_some, h2, h3, h4]

/-- Witness for C8 at concrete cooling objects. -/
theorem c8_mode_chain_defaults_witness :
    modeLine emptyMiner = "  • Mode: N/A" ∧
    modeLine { emptyMiner with cooling := some emptyCooling } = "  • Mode: N/A" ∧
    modeLine { emptyMiner with cooling := some { emptyCooling with
      settings := some ⟨none⟩ } } = "  • Mode: N/A" ∧
    modeLine { emptyMiner with cooling := some { emptyCooling with
      settings := some ⟨some ⟨none⟩⟩ } } = "  • Mode: N/A" ∧
    modeLine { emptyMiner with cooling := some { emptyCooling with
      settings := some ⟨some ⟨some "immersion"⟩⟩ } } = "  • Mode: immersion" := by
  obtain ⟨-, h2, h3, h4, h5, h6⟩ := c8_mode_chain_defaults
  exact ⟨h2 emptyMiner rfl, h3 _ emptyCooling rfl rfl, h4 _ _ ⟨none⟩ rfl rfl rfl,
    h5 _ _ _ ⟨none⟩ rfl rfl rfl rfl, h6 _ _ _ _ "immersion" rfl rfl rfl rfl⟩

/-- Outcome of one `requests.get(...)` call as the repository code can
observe it: `connError` and `timeout` stand for a `RequestException`
raised by `requests.get` itself (network failure resp. expiry of the
`timeout=10` bound); `response code body` is a received HTTP response with
its final status code and, when its body is parseable JSON, the parsed
body — `body = none` means `response.json()` raises `JSONDecodeError`,
which is a `RequestException` subclass. -/
inductive RequestsOutcome (α : Type) where
  | connError : RequestsOutcome α
  | timeout : RequestsOutcome α
  | response (statusCode : Nat) (body : Option α) : RequestsOutcome α
deriving DecidableEq

/-- Common shape of `check_auth` (lines 22-34) and `get_summary`
(lines 36-48): `requests.get` inside `try`, then `raise_for_status()`,
then `return response.json()`; every raised `RequestException` is caught
and converted into the empty dict.  `raise_for_status` raises `HTTPError`
exactly for status codes 400-599 (documented `requests` behaviour); 1xx,
2xx and 3xx final responses do not raise. -/
def requestJsonOrEmpty {α : Type} (emptyResult : α) : RequestsOutcome α → α
  | .connError => emptyResult
  | .timeout => emptyResult
  | .response code body =>
    if 400 ≤ code ∧ code < 600 then emptyResult
    else
      match body with
      | some j => j
      | none => emptyResult

/-- Body of the auth-check endpoint: an arbitrary JSON object, kept
abstract as a key-value list; the program never validates it. -/
structure AuthDocument where
  entries : List (String × String)
deriving DecidableEq

/-- The `{}` returned by the error branch of `check_auth`. -/
def emptyAuthDocument : AuthDocument := ⟨[]⟩

/-- The `{}` returned by the error branch of `get_summary`: a dict with no
keys, in particular no `'miner'` key. -/
def emptyStatusDocument : StatusDocument := ⟨none⟩

/-- Lines 22-34, `MinerAPI.check_auth`. -/
def check_auth : RequestsOutcome AuthDocument → AuthDocument :=
  requestJsonOrEmpty emptyAuthDocument

/-- Lines 36-48, `MinerAPI.get_summary`. -/
def get_summary : RequestsOutcome StatusDocument → StatusDocument :=
  requestJsonOrEmpty emptyStatusDocument

/-- C9 fails for 3xx responses: `raise_for_status` raises only for
400-599, so a final non-2xx response with status 301 (reachable when the
redirect chain ends in a redirect status without a followable location)
whose body parses as JSON is returned as-is, not replaced by the empty
result. -/
theorem c9_redirect_status_returns_body :
    get_summary (.response 301 (some ⟨some emptyMiner⟩)) = ⟨some emptyMiner⟩ ∧
    (⟨some emptyMiner⟩ : StatusDocument) ≠ emptyStatusDocument := by
  decide

/-- C9 amended: a transport failure, a timeout, a 4xx/5xx response, or an
unparseable body makes both operations return the empty result instead of
propagating an error; a 2xx response with a parseable JSON body is
returned parsed. -/
theorem c9_http_failure_amended :
    check_auth .connError = emptyAuthDocument ∧
    check_auth .timeout = emptyAuthDocument ∧
    get_summary .connError = emptyStatusDocument ∧
    get_summary .timeout = emptyStatusDocument ∧
    (∀ (code : Nat) (body : Option AuthDocument), 400 ≤ code → code < 600 →
      check_auth (.response code body) = emptyAuthDocument) ∧
    (∀ (code : Nat) (body : Option StatusDocument), 400 ≤ code → code < 600 →
      get_summary (.response code body) = emptyStatusDocument) ∧
    (∀ code : Nat, get_summary (.response code none) = emptyStatusDocument) ∧
    (∀ (code : Nat) (d : StatusDocument), 200 ≤ code → code < 300 →
      get_summary (.response code (some d)) = d) ∧
    (∀ (code : Nat) (a : AuthDocument), 200 ≤ code → code < 300 →
      check_auth (.response code (some a)) = a) := by
  refine ⟨rfl, rfl, rfl, rfl, ?_, ?_, ?_, ?_, ?_⟩
  · intro code body h1 h2
    have hc : 400 ≤ code ∧ code < 600 := ⟨h1, h2⟩
    simp [check_auth, requestJsonOrEmpty, hc]
  · intro code body h1 h2
    have hc : 400 ≤ code ∧ code < 600 := ⟨h1, h2⟩
    simp [get_summary, requestJsonOrEmpty, hc]
  · intro code
    by_cases hc : 400 ≤ code ∧ code < 600 <;>
      simp [get_summary, requestJsonOrEmpty, hc]
  · intro code d h1 h2
    have hn : ¬(400 ≤ code ∧ code < 600) := by omega
    simp [get_summary, requestJsonOrEmpty, hn]
  · intro code a h1 h2
    have hn : ¬(400 ≤ code ∧ code < 600) := by omega
    simp [check_auth, requestJsonOrEmpty, hn]

/-- Witness for C9 (amended) at concrete status codes. -/
theorem c9_http_failure_amended_witness :
    check_auth (.response 404 (some ⟨[("detail", "unauthorized")]⟩)) = emptyAuthDocument ∧
    get_summary (.response 500 (some ⟨some emptyMiner⟩)) = emptyStatusDocument ∧
    get_summary (.response 418 none) = emptyStatusDocument ∧
    get_summary (.response 200 (some ⟨some emptyMiner⟩)) = ⟨some emptyMiner⟩ ∧
    check_auth (.response 200 (some ⟨[("token", "ok")]⟩)) = ⟨[("token", "ok")]⟩ := by
  obtain ⟨-, -, -, -, h5, h6, h7, h8, h9⟩ := c9_http_failure_amended
  exact ⟨h5 404 _ (by decide) (by decide), h6 500 _ (by decide) (by decide),
    h7 418, h8 200 _ (by decide) (by decide), h9 200 _ (by decide) (by decide)⟩

/-- Python `x or y` on an optional string (line 10,
`api_key or os.environ.get('MINER_API_KEY')`): `None` and `""` are falsy
and fall through to the second operand, which is returned as-is. -/
def pyOrStr (a b : Option String) : Option String :=
  match a with
  | none => b
  | some s => if s = "" then b else some s

/-- State of a constructed `MinerAPI` object (lines 8-20). -/
structure MinerAPI where
  base_url : String
  api_key : Option String
  headers : List (String × String)
deriving DecidableEq

/-- Lines 8-17, `MinerAPI.__init__`: resolve the key as the explicit
argument `or` the `MINER_API_KEY` environment variable (both passed
explicitly here); the Authorization header is added after the accept
header only when the resolved key is truthy (neither `None` nor `""`). -/
def MinerAPI.init (base_url : String) (api_key env_MINER_API_KEY : Option String) : MinerAPI :=
  match pyOrStr api_key env_MINER_API_KEY with
  | none => ⟨base_url, none, [("accept", "application/json")]⟩
  | some s =>
    if s = "" then ⟨base_url, some "", [("accept", "application/json")]⟩
    else ⟨base_url, some s,
      [("accept", "application/json"), ("Authorization", "Bearer " ++ s)]⟩

/-- C10: an explicitly passed empty-string API key behaves exactly like an
absent one — the constructor falls back to the environment value; if that
is also absent or empty the headers contain only the accept header, and if
it is non-empty a Bearer Authorization header is added. -/
theorem c10_falsy_key_fallback (burl : String) (env : Option String) :
    MinerAPI.init burl (some "") env = MinerAPI.init burl none env ∧
    (env = none ∨ env = some "" →
      (MinerAPI.init burl (some "") env).headers = [("accept", "application/json")]) ∧
    (∀ s : String, s ≠ "" →
      (MinerAPI.init burl (some "") (some s)).headers =
        [("accept", "application/json"), ("Authorization", "Bearer " ++ s)]) := by
  refine ⟨?_, ?_, ?_⟩
  · cases env <;> simp [MinerAPI.init, pyOrStr]
  · rintro (h | h) <;> subst h <;> rfl
  · intro s hs
    simp [MinerAPI.init, pyOrStr, hs]

/-- Witness for C10 at concrete keys. -/
theorem c10_falsy_key_fallback_witness :
    (MinerAPI.init "http://172.16.58.104" (some "") none).headers =
      [("accept", "application/json")] ∧
    (MinerAPI.init "http://172.16.58.104" (some "") (some "")).headers =
      [("accept", "application/json")] ∧
    (MinerAPI.init "http://172.16.58.104" (some "") (some "k")).headers =
      [("accept", "application/json"), ("Authorization", "Bearer " ++ "k")] := by
  obtain ⟨-, h2, h3⟩ := c10_falsy_key_fallback "http://172.16.58.104" none
  obtain ⟨-, h4, -⟩ := c10_falsy_key_fallback "http://172.16.58.104" (some "")
  exact ⟨h2 (Or.inl rfl), h4 (Or.inr rfl), h3 "k" (by decide)⟩
